import Mathlib

/-!
Shallow embedding of the tiered access gateway in
`workers/quantum-api-worker.mjs`: API key classification (`getApiKeyTier`),
per-key rate limiting (`checkRateLimit`), request validation
(`validateApiKey`, `validateRequest`), the real-hardware capability gate
(`canUseRealHardware`) and the endpoint handler `handleBellPair`.

Modelling conventions:
* JS numbers holding counters and millisecond timestamps are `Nat`.
* A per-window request limit is `Option Nat`: `none` is the JS `Infinity`
  sentinel, `some n` a finite limit.
* The worker's global `rateLimitStore` keyed by API key is modelled per key:
  `Option KeyState` is the entry for the key under consideration (`none` =
  not yet initialized), and every stateful function returns the updated
  entry alongside its result.
* `remaining` is `Option Int` (`none` = JS `Infinity`, since
  `Infinity - count = Infinity` in JS; finite arithmetic is exact on `Int`).
-/

namespace QuantumApiWorker

/-- A tier descriptor, mirroring the records in `API_KEY_TIERS`. -/
structure Tier where
  name : String
  requestsPerDay : Option Nat
  requestsPerHour : Option Nat
  requestsPerMinute : Option Nat
  allowRealHardware : Bool
  allowAllProtocols : Bool
deriving DecidableEq, Repr

/-- `API_KEY_TIERS['free_']`. -/
def freeTier : Tier :=
  { name := "Free", requestsPerDay := some 100, requestsPerHour := some 10,
    requestsPerMinute := some 2, allowRealHardware := false, allowAllProtocols := true }

/-- `API_KEY_TIERS['pro_']`. -/
def proTier : Tier :=
  { name := "Pro", requestsPerDay := some 10000, requestsPerHour := some 1000,
    requestsPerMinute := some 100, allowRealHardware := true, allowAllProtocols := true }

/-- `API_KEY_TIERS['ent_']` (all limits `Infinity`). -/
def entTier : Tier :=
  { name := "Enterprise", requestsPerDay := none, requestsPerHour := none,
    requestsPerMinute := none, allowRealHardware := true, allowAllProtocols := true }

/-- JS `s.startsWith(pre)`, modelled on the strings' character lists
(`pre` is a literal character-wise prefix of `s`). -/
def strStartsWith (s pre : String) : Bool :=
  pre.data.isPrefixOf s.data

/-- `getApiKeyTier(apiKey)`: `none` input models a JS `null`/absent key; the
empty string is also falsy in JS (`if (!apiKey) return null`). Unmatched
prefixes default to the Free tier. -/
def getApiKeyTier (apiKey : Option String) : Option Tier :=
  match apiKey with
  | none => none
  | some k =>
    if k = "" then none
    else if strStartsWith k "free_" then some freeTier
    else if strStartsWith k "pro_" then some proTier
    else if strStartsWith k "ent_" then some entTier
    else some freeTier

/-- One entry of the store for one window:
`{ count, resetTime }` (`resetTime` in ms since epoch). -/
structure WindowState where
  count : Nat
  resetTime : Nat
deriving DecidableEq, Repr

/-- The store entry for one key: `{ day, hour, minute }`. -/
structure KeyState where
  day : WindowState
  hour : WindowState
  minute : WindowState
deriving DecidableEq, Repr

/-- `24 * 60 * 60 * 1000`. -/
def dayMs : Nat := 24 * 60 * 60 * 1000

/-- `60 * 60 * 1000`. -/
def hourMs : Nat := 60 * 60 * 1000

/-- `60 * 1000`. -/
def minuteMs : Nat := 60 * 1000

/-- The lazy initialization of `rateLimitStore[apiKey]`
(`count: 0`, `resetTime: now + windowMs` for each window). -/
def initKeyState (now : Nat) : KeyState :=
  { day := { count := 0, resetTime := now + dayMs },
    hour := { count := 0, resetTime := now + hourMs },
    minute := { count := 0, resetTime := now + minuteMs } }

/-- `if (now >= limits.w.resetTime) limits.w = { count: 0, resetTime: now + wMs }`. -/
def resetWindow (w : WindowState) (now dur : Nat) : WindowState :=
  if w.resetTime ≤ now then { count := 0, resetTime := now + dur } else w

/-- The key's store entry after lazy initialization and the three
window-expiry resets at the top of `checkRateLimit`. -/
def postResetState (st : Option KeyState) (now : Nat) : KeyState :=
  let s0 := st.getD (initKeyState now)
  { day := resetWindow s0.day now dayMs,
    hour := resetWindow s0.hour now hourMs,
    minute := resetWindow s0.minute now minuteMs }

/-- `tier.requestsPerW !== Infinity && limits.w.count >= tier.requestsPerW`. -/
def exceeded (limit : Option Nat) (count : Nat) : Bool :=
  match limit with
  | none => false
  | some l => l ≤ count

/-- JS `tier.requestsPerDay - limits.day.count`
(`Infinity - n = Infinity`; finite case is exact integer arithmetic). -/
def subRemaining (limit : Option Nat) (count : Nat) : Option Int :=
  match limit with
  | none => none
  | some l => some ((l : Int) - (count : Int))

/-- `count` is within a window's limit: vacuous for an unlimited window
(`Infinity`), `count ≤ l` for a finite limit `l`. -/
def withinLimit (limit : Option Nat) (count : Nat) : Bool :=
  match limit with
  | none => true
  | some l => decide (count ≤ l)

/-- Result of `checkRateLimit`: either `{allowed: false, reason, limit,
resetTime}` or `{allowed: true, remaining}`. -/
inductive RLResult where
  | blocked (reason : String) (limit : Option Nat) (resetTime : Nat)
  | allowed (remaining : Option Int)
deriving DecidableEq, Repr

/-- `true` iff the result is a block (`allowed: false`). -/
def RLResult.isBlocked : RLResult → Bool
  | .blocked .. => true
  | .allowed _ => false

/-- `checkRateLimit(apiKey, tier)` for one key's store entry, at time `now`
(`Date.now()`). Returns the result and the updated store entry. The
source's `if (!tier)` guard is omitted: `validateRequest` only calls
`checkRateLimit` with the non-null tier produced by `validateApiKey`, so
the guard is unreachable on every path this development models. -/
def checkRateLimit (tier : Tier) (st : Option KeyState) (now : Nat) :
    RLResult × KeyState :=
  let s := postResetState st now
  if exceeded tier.requestsPerDay s.day.count then
    (.blocked "Daily rate limit exceeded" tier.requestsPerDay s.day.resetTime, s)
  else if exceeded tier.requestsPerHour s.hour.count then
    (.blocked "Hourly rate limit exceeded" tier.requestsPerHour s.hour.resetTime, s)
  else if exceeded tier.requestsPerMinute s.minute.count then
    (.blocked "Rate limit exceeded" tier.requestsPerMinute s.minute.resetTime, s)
  else
    let s' : KeyState :=
      { day := { count := s.day.count + 1, resetTime := s.day.resetTime },
        hour := { count := s.hour.count + 1, resetTime := s.hour.resetTime },
        minute := { count := s.minute.count + 1, resetTime := s.minute.resetTime } }
    (.allowed (subRemaining tier.requestsPerDay s'.day.count), s')

/-- The three rate-limit windows, in the fixed evaluation order of the
source: day, then hour, then minute. -/
inductive Window where
  | day
  | hour
  | minute
deriving DecidableEq, Repr

/-- The tier's limit for a window. -/
def windowLimit (tier : Tier) : Window → Option Nat
  | .day => tier.requestsPerDay
  | .hour => tier.requestsPerHour
  | .minute => tier.requestsPerMinute

/-- The key state's entry for a window. -/
def windowOf (s : KeyState) : Window → WindowState
  | .day => s.day
  | .hour => s.hour
  | .minute => s.minute

/-- The `reason` string the source attaches to a block on each window.
The three strings are pairwise distinct, so a blocked result identifies
its window. -/
def windowReason : Window → String
  | .day => "Daily rate limit exceeded"
  | .hour => "Hourly rate limit exceeded"
  | .minute => "Rate limit exceeded"

/-- The first window (in the source's day, hour, minute order) whose
post-reset count has reached a finite limit, if any. -/
def firstBlockedWindow (tier : Tier) (s : KeyState) : Option Window :=
  if exceeded tier.requestsPerDay s.day.count then some .day
  else if exceeded tier.requestsPerHour s.hour.count then some .hour
  else if exceeded tier.requestsPerMinute s.minute.count then some .minute
  else none

/-- Result of `validateApiKey(request)`: `{valid: false, error}` or
`{valid: true, tier, apiKey}`. -/
inductive KeyValidation where
  | invalid (error : String)
  | valid (tier : Tier) (apiKey : String)
deriving DecidableEq, Repr

/-- `validateApiKey(request)`, with the request's `X-API-Key` header value
as input (`none` = header absent). -/
def validateApiKey (apiKey : Option String) : KeyValidation :=
  match apiKey with
  | none => .invalid "Missing API key"
  | some k =>
    if k.length = 0 then .invalid "Missing API key"
    else
      match getApiKeyTier (some k) with
      | none => .invalid "Invalid API key format"
      | some tier => .valid tier k

/-- JS `n.toString()` for a limit (`Infinity.toString() = "Infinity"`). -/
def limitToString : Option Nat → String
  | none => "Infinity"
  | some n => toString n

/-- JS `rateLimit.remaining?.toString() || '0'` on the allowed path, where
`remaining` is a number (possibly `Infinity`); a number's string is never
empty, so the `|| '0'` fallback never fires there. -/
def remainingToString : Option Int → String
  | none => "Infinity"
  | some i => toString i

/-- The header bundle built by `validateRequest` on success. -/
structure RateHeaders where
  xRateLimitLimit : String
  xRateLimitRemaining : String
  xRateLimitReset : String
  xApiTier : String
deriving DecidableEq, Repr

/-- Result of `validateRequest`: a rejection (an `errorResponse` with its
machine-readable `code` and HTTP `status`, plus the blocked window's data
when the rejection is a 429) or success with the rate-limit headers. -/
inductive ValidationResult where
  | invalidKey (error : String)
  | rateLimited (reason : String) (limit : Option Nat) (resetTime : Nat)
  | ok (tier : Tier) (apiKey : String) (remaining : Option Int) (headers : RateHeaders)
deriving DecidableEq, Repr

/-- The `code` field of the `errorResponse` each rejection maps to. -/
def ValidationResult.errorCode : ValidationResult → Option String
  | .invalidKey _ => some "INVALID_API_KEY"
  | .rateLimited .. => some "RATE_LIMIT_EXCEEDED"
  | .ok .. => none

/-- The HTTP status of the `errorResponse` each rejection maps to. -/
def ValidationResult.errorStatus : ValidationResult → Option Nat
  | .invalidKey _ => some 401
  | .rateLimited .. => some 429
  | .ok .. => none

/-- `validateRequest(request)` with `requireAuth = true`: key validation,
then `checkRateLimit`, then the header bundle. On the allowed path the
source reads `rateLimit.resetTime?.toString() || ''`, but an allowed
`checkRateLimit` result has no `resetTime` field, so the
`X-RateLimit-Reset` header is always the empty string. -/
def validateRequest (apiKey : Option String) (st : Option KeyState) (now : Nat) :
    ValidationResult × Option KeyState :=
  match validateApiKey apiKey with
  | .invalid e => (.invalidKey e, st)
  | .valid tier key =>
    match checkRateLimit tier st now with
    | (.blocked reason l rt, s') => (.rateLimited reason l rt, some s')
    | (.allowed r, s') =>
      (.ok tier key r
        { xRateLimitLimit := limitToString tier.requestsPerDay,
          xRateLimitRemaining := remainingToString r,
          xRateLimitReset := "",
          xApiTier := tier.name }, some s')

/-- The request-body fields the capability gate reads:
`use_real_hardware` and `useRealHardware` (absent = `false`, matching the
JS truthiness of `undefined`). -/
structure RequestBody where
  use_real_hardware : Bool
  useRealHardware : Bool
deriving DecidableEq, Repr

/-- `canUseRealHardware(tier, requestBody)` (`none` tier models the JS
`if (!tier) return false` guard). -/
def canUseRealHardware (tier : Option Tier) (body : RequestBody) : Bool :=
  match tier with
  | none => false
  | some t =>
    if t.allowRealHardware then true
    else
      let useReal := body.use_real_hardware || body.useRealHardware
      if useReal && !t.allowRealHardware then false
      else true

/-- Response of `handleBellPair` as far as the gateway is concerned: an
`errorResponse` (code, HTTP status) or a success carrying the effective
`hardware` flag and the rate-limit headers. The randomized simulation
payload and the `INVALID_PARAMETERS` path for an unparseable body are out
of scope (the body is modelled as already parsed). -/
inductive BellResponse where
  | error (code : String) (status : Nat)
  | ok (hardware : Bool) (headers : RateHeaders)
deriving DecidableEq, Repr

/-- `handleBellPair(request)`: `validateRequest`, then the real-hardware
gate (`requestedRealHardware = body.use_real_hardware || false`;
`useRealHardware = canUseRealHardware(tier, body) && requestedRealHardware`;
hard 403 when requested but not granted), then the simulated result with
`result.hardware = useRealHardware`. Returns the response and the updated
store entry for the key. -/
def handleBellPair (apiKey : Option String) (body : RequestBody)
    (st : Option KeyState) (now : Nat) : BellResponse × Option KeyState :=
  match validateRequest apiKey st now with
  | (.invalidKey _, st') => (.error "INVALID_API_KEY" 401, st')
  | (.rateLimited .., st') => (.error "RATE_LIMIT_EXCEEDED" 429, st')
  | (.ok tier _ _ headers, st') =>
    let requestedRealHardware := body.use_real_hardware
    let useRealHardware := canUseRealHardware (some tier) body && requestedRealHardware
    if requestedRealHardware && !useRealHardware then
      (.error "HARDWARE_ACCESS_DENIED" 403, st')
    else
      (.ok useRealHardware headers, st')


theorem string_length_eq_zero_iff (k : String) : k.length = 0 ↔ k = "" := by
  cases k with
  | mk data => cases data <;> simp [String.length, String.ext_iff]

theorem getApiKeyTier_total (k : String) (hk : k ≠ "") :
    ∃ t : Tier, getApiKeyTier (some k) = some t := by
  rcases hf : strStartsWith k "free_" <;> rcases hp : strStartsWith k "pro_" <;>
    rcases he : strStartsWith k "ent_" <;>
      simp [getApiKeyTier, hk, hf, hp, he]

theorem validateApiKey_of_ne_empty (k : String) (hk : k ≠ "") :
    ∃ t : Tier, validateApiKey (some k) = .valid t k := by
  obtain ⟨t, ht⟩ := getApiKeyTier_total k hk
  refine ⟨t, ?_⟩
  simp only [validateApiKey]
  rw [if_neg (by simpa [string_length_eq_zero_iff] using hk), ht]

theorem resetWindow_count_le (w : WindowState) (now dur : Nat) :
    (resetWindow w now dur).count ≤ w.count := by
  unfold resetWindow
  split <;> simp

theorem withinLimit_zero (l : Option Nat) : withinLimit l 0 = true := by
  cases l <;> simp [withinLimit]

theorem withinLimit_resetWindow (l : Option Nat) (w : WindowState) (now dur : Nat)
    (h : withinLimit l w.count = true) :
    withinLimit l (resetWindow w now dur).count = true := by
  unfold resetWindow
  split
  · exact withinLimit_zero l
  · exact h

theorem withinLimit_succ (l : Option Nat) (c : Nat) (h : exceeded l c = false) :
    withinLimit l (c + 1) = true := by
  cases l with
  | none => simp [withinLimit]
  | some v =>
    simp [exceeded] at h
    simp [withinLimit]
    omega

theorem checkRateLimit_blocked_day_eq (tier : Tier) (st : Option KeyState) (now : Nat)
    (hd : exceeded tier.requestsPerDay (postResetState st now).day.count = true) :
    checkRateLimit tier st now =
      (.blocked "Daily rate limit exceeded" tier.requestsPerDay
        (postResetState st now).day.resetTime, postResetState st now) := by
  simp [checkRateLimit, hd]

theorem checkRateLimit_blocked_hour_eq (tier : Tier) (st : Option KeyState) (now : Nat)
    (hd : exceeded tier.requestsPerDay (postResetState st now).day.count = false)
    (hh : exceeded tier.requestsPerHour (postResetState st now).hour.count = true) :
    checkRateLimit tier st now =
      (.blocked "Hourly rate limit exceeded" tier.requestsPerHour
        (postResetState st now).hour.resetTime, postResetState st now) := by
  simp [checkRateLimit, hd, hh]

theorem checkRateLimit_blocked_minute_eq (tier : Tier) (st : Option KeyState) (now : Nat)
    (hd : exceeded tier.requestsPerDay (postResetState st now).day.count = false)
    (hh : exceeded tier.requestsPerHour (postResetState st now).hour.count = false)
    (hm : exceeded tier.requestsPerMinute (postResetState st now).minute.count = true) :
    checkRateLimit tier st now =
      (.blocked "Rate limit exceeded" tier.requestsPerMinute
        (postResetState st now).minute.resetTime, postResetState st now) := by
  simp [checkRateLimit, hd, hh, hm]

theorem checkRateLimit_allowed_eq (tier : Tier) (st : Option KeyState) (now : Nat)
    (hd : exceeded tier.requestsPerDay (postResetState st now).day.count = false)
    (hh : exceeded tier.requestsPerHour (postResetState st now).hour.count = false)
    (hm : exceeded tier.requestsPerMinute (postResetState st now).minute.count = false) :
    checkRateLimit tier st now =
      (.allowed (subRemaining tier.requestsPerDay ((postResetState st now).day.count + 1)),
       { day := { count := (postResetState st now).day.count + 1,
                  resetTime := (postResetState st now).day.resetTime },
         hour := { count := (postResetState st now).hour.count + 1,
                   resetTime := (postResetState st now).hour.resetTime },
         minute := { count := (postResetState st now).minute.count + 1,
                     resetTime := (postResetState st now).minute.resetTime } }) := by
  simp [checkRateLimit, hd, hh, hm]

theorem checkRateLimit_isBlocked_iff (tier : Tier) (st : Option KeyState) (now : Nat) :
    (checkRateLimit tier st now).1.isBlocked = true ↔
      (exceeded tier.requestsPerDay (postResetState st now).day.count = true ∨
       exceeded tier.requestsPerHour (postResetState st now).hour.count = true ∨
       exceeded tier.requestsPerMinute (postResetState st now).minute.count = true) := by
  rcases hd : exceeded tier.requestsPerDay (postResetState st now).day.count <;>
    rcases hh : exceeded tier.requestsPerHour (postResetState st now).hour.count <;>
      rcases hm : exceeded tier.requestsPerMinute (postResetState st now).minute.count <;>
        simp [checkRateLimit, RLResult.isBlocked, hd, hh, hm]

theorem checkRateLimit_state_of_blocked (tier : Tier) (st : Option KeyState) (now : Nat)
    (h : (checkRateLimit tier st now).1.isBlocked = true) :
    (checkRateLimit tier st now).2 = postResetState st now := by
  rcases hd : exceeded tier.requestsPerDay (postResetState st now).day.count
  · rcases hh : exceeded tier.requestsPerHour (postResetState st now).hour.count
    · rcases hm : exceeded tier.requestsPerMinute (postResetState st now).minute.count
      · simp [checkRateLimit, RLResult.isBlocked, hd, hh, hm] at h
      · simp [checkRateLimit_blocked_minute_eq tier st now hd hh hm]
    · simp [checkRateLimit_blocked_hour_eq tier st now hd hh]
  · simp [checkRateLimit_blocked_day_eq tier st now hd]


theorem snd_ite {α β : Type} (c : Prop) [Decidable c] (a b : α) (z : β) :
    (if c then (a, z) else (b, z)).2 = z := by
  split <;> rfl

/-- C1: the claim as stated is false: a Blocked call can still change a
counter, because an expired window is reset to 0 before the limits are
checked. Free tier, store entry day = 100/reset 1000000, hour = 0, minute
= 2/reset 5, at now = 10: the call blocks on the day window, yet the
minute counter changes from 2 to 0 (its window expired and was reset). -/
theorem C1_counterexample :
    ((checkRateLimit freeTier
        (some ⟨⟨100, 1000000⟩, ⟨0, 1000000⟩, ⟨2, 5⟩⟩) 10).1.isBlocked = true) ∧
    (checkRateLimit freeTier
        (some ⟨⟨100, 1000000⟩, ⟨0, 1000000⟩, ⟨2, 5⟩⟩) 10).2.minute.count ≠
      (⟨⟨100, 1000000⟩, ⟨0, 1000000⟩, ⟨2, 5⟩⟩ : KeyState).minute.count := by
  decide

/-- C1 (amended): if `checkRateLimit` returns Blocked, no window counter is
incremented: the key's state after the call is exactly the post-reset
state, and in particular every counter is at most its pre-call value (a
counter can only have been reset to 0 by window expiry, never raised). -/
theorem C1_blocked_no_increment (tier : Tier) (st : Option KeyState) (now : Nat)
    (h : (checkRateLimit tier st now).1.isBlocked = true) :
    (checkRateLimit tier st now).2 = postResetState st now ∧
    (checkRateLimit tier st now).2.day.count ≤ (st.getD (initKeyState now)).day.count ∧
    (checkRateLimit tier st now).2.hour.count ≤ (st.getD (initKeyState now)).hour.count ∧
    (checkRateLimit tier st now).2.minute.count ≤ (st.getD (initKeyState now)).minute.count := by
  have hst := checkRateLimit_state_of_blocked tier st now h
  rw [hst]
  exact ⟨rfl, resetWindow_count_le _ _ _, resetWindow_count_le _ _ _,
    resetWindow_count_le _ _ _⟩

/-- C1 witness: the amended statement at the counterexample's input. -/
theorem C1_blocked_no_increment_witness :
    (checkRateLimit freeTier
        (some ⟨⟨100, 1000000⟩, ⟨0, 1000000⟩, ⟨2, 5⟩⟩) 10).2 =
      postResetState (some ⟨⟨100, 1000000⟩, ⟨0, 1000000⟩, ⟨2, 5⟩⟩) 10 ∧
    (checkRateLimit freeTier
        (some ⟨⟨100, 1000000⟩, ⟨0, 1000000⟩, ⟨2, 5⟩⟩) 10).2.day.count ≤
      ((some (⟨⟨100, 1000000⟩, ⟨0, 1000000⟩, ⟨2, 5⟩⟩ : KeyState)).getD (initKeyState 10)).day.count ∧
    (checkRateLimit freeTier
        (some ⟨⟨100, 1000000⟩, ⟨0, 1000000⟩, ⟨2, 5⟩⟩) 10).2.hour.count ≤
      ((some (⟨⟨100, 1000000⟩, ⟨0, 1000000⟩, ⟨2, 5⟩⟩ : KeyState)).getD (initKeyState 10)).hour.count ∧
    (checkRateLimit freeTier
        (some ⟨⟨100, 1000000⟩, ⟨0, 1000000⟩, ⟨2, 5⟩⟩) 10).2.minute.count ≤
      ((some (⟨⟨100, 1000000⟩, ⟨0, 1000000⟩, ⟨2, 5⟩⟩ : KeyState)).getD (initKeyState 10)).minute.count :=
  C1_blocked_no_increment freeTier
    (some ⟨⟨100, 1000000⟩, ⟨0, 1000000⟩, ⟨2, 5⟩⟩) 10 (by decide)

/-- C2: `checkRateLimit` blocks exactly when some window with a finite
limit has post-reset `count >= limit`, and the Blocked result carries the
reason string, limit and `resetTime` of the first such window in the fixed
day, hour, minute order (`firstBlockedWindow`). -/
theorem C2_window_order (tier : Tier) (st : Option KeyState) (now : Nat) :
    ((checkRateLimit tier st now).1.isBlocked = true ↔
      ∃ w : Window,
        exceeded (windowLimit tier w) ((windowOf (postResetState st now) w).count) = true) ∧
    (∀ w : Window, firstBlockedWindow tier (postResetState st now) = some w →
      (checkRateLimit tier st now).1 =
        .blocked (windowReason w) (windowLimit tier w)
          ((windowOf (postResetState st now) w).resetTime)) := by
  constructor
  · rw [checkRateLimit_isBlocked_iff]
    constructor
    · rintro (h | h | h)
      exacts [⟨.day, h⟩, ⟨.hour, h⟩, ⟨.minute, h⟩]
    · rintro ⟨w, hw⟩
      cases w
      · exact Or.inl hw
      · exact Or.inr (Or.inl hw)
      · exact Or.inr (Or.inr hw)
  · intro w hw
    rcases hd : exceeded tier.requestsPerDay (postResetState st now).day.count
    · rcases hh : exceeded tier.requestsPerHour (postResetState st now).hour.count
      · rcases hm : exceeded tier.requestsPerMinute (postResetState st now).minute.count
        · simp [firstBlockedWindow, hd, hh, hm] at hw
        · simp only [firstBlockedWindow, hd, hh, hm] at hw
          simp only [Bool.false_eq_true, if_false, if_true, Option.some.injEq] at hw
          subst hw
          simp [checkRateLimit_blocked_minute_eq tier st now hd hh hm,
            windowReason, windowLimit, windowOf]
      · simp only [firstBlockedWindow, hd, hh] at hw
        simp only [Bool.false_eq_true, if_false, if_true, Option.some.injEq] at hw
        subst hw
        simp [checkRateLimit_blocked_hour_eq tier st now hd hh,
          windowReason, windowLimit, windowOf]
    · simp only [firstBlockedWindow, hd] at hw
      simp only [if_true, Option.some.injEq] at hw
      subst hw
      simp [checkRateLimit_blocked_day_eq tier st now hd,
        windowReason, windowLimit, windowOf]

/-- C2 witness: Free tier, minute counter already at its limit 2 (day and
hour below limit), no window expired: the call is Blocked naming the
minute window, its limit 2 and its resetTime. -/
theorem C2_window_order_witness :
    (checkRateLimit freeTier
        (some ⟨⟨5, 1000000000⟩, ⟨3, 1000000000⟩, ⟨2, 1000000000⟩⟩) 0).1 =
      .blocked (windowReason .minute) (windowLimit freeTier .minute)
        ((windowOf (postResetState
            (some ⟨⟨5, 1000000000⟩, ⟨3, 1000000000⟩, ⟨2, 1000000000⟩⟩) 0) .minute).resetTime) :=
  (C2_window_order freeTier
      (some ⟨⟨5, 1000000000⟩, ⟨3, 1000000000⟩, ⟨2, 1000000000⟩⟩) 0).2 .minute (by decide)

/-- C3: an Allowed call increments all three window counters by exactly 1
and returns `remaining = tier.requestsPerDay - newDayCount` where
`newDayCount` is the day counter after the increment. -/
theorem C3_allowed_increments (tier : Tier) (st : Option KeyState) (now : Nat)
    (r : Option Int) (h : (checkRateLimit tier st now).1 = .allowed r) :
    (checkRateLimit tier st now).2.day.count = (postResetState st now).day.count + 1 ∧
    (checkRateLimit tier st now).2.hour.count = (postResetState st now).hour.count + 1 ∧
    (checkRateLimit tier st now).2.minute.count = (postResetState st now).minute.count + 1 ∧
    r = subRemaining tier.requestsPerDay (checkRateLimit tier st now).2.day.count := by
  rcases hd : exceeded tier.requestsPerDay (postResetState st now).day.count
  · rcases hh : exceeded tier.requestsPerHour (postResetState st now).hour.count
    · rcases hm : exceeded tier.requestsPerMinute (postResetState st now).minute.count
      · rw [checkRateLimit_allowed_eq tier st now hd hh hm] at h ⊢
        simp only [RLResult.allowed.injEq] at h
        subst h
        simp
      · rw [checkRateLimit_blocked_minute_eq tier st now hd hh hm] at h
        simp at h
    · rw [checkRateLimit_blocked_hour_eq tier st now hd hh] at h
      simp at h
  · rw [checkRateLimit_blocked_day_eq tier st now hd] at h
    simp at h

/-- C3 witness: first call ever for a Free-tier key at now = 0: all three
counters go 0 to 1, remaining = 100 - 1 = 99. -/
theorem C3_allowed_increments_witness :
    (checkRateLimit freeTier none 0).2.day.count = (postResetState none 0).day.count + 1 ∧
    (checkRateLimit freeTier none 0).2.hour.count = (postResetState none 0).hour.count + 1 ∧
    (checkRateLimit freeTier none 0).2.minute.count = (postResetState none 0).minute.count + 1 ∧
    some (99 : Int) = subRemaining freeTier.requestsPerDay (checkRateLimit freeTier none 0).2.day.count :=
  C3_allowed_increments freeTier none 0 (some 99) (by decide)

/-- C5: key classification is total (every non-empty key gets a tier),
defaults unmatched prefixes to the Free tier, and is a pure function of
the key (determinism is definitional). -/
theorem C5_classification_total (k : String) (hk : k ≠ "") :
    (∃ t : Tier, getApiKeyTier (some k) = some t) ∧
    (strStartsWith k "free_" = false → strStartsWith k "pro_" = false →
      strStartsWith k "ent_" = false → getApiKeyTier (some k) = some freeTier) ∧
    getApiKeyTier (some k) = getApiKeyTier (some k) := by
  refine ⟨getApiKeyTier_total k hk, ?_, rfl⟩
  intro h1 h2 h3
  simp [getApiKeyTier, hk, h1, h2, h3]

/-- C5 witness: the unrecognized key "xyz" is classified, into Free. -/
theorem C5_classification_total_witness :
    (∃ t : Tier, getApiKeyTier (some "xyz") = some t) ∧
    (strStartsWith "xyz" "free_" = false → strStartsWith "xyz" "pro_" = false →
      strStartsWith "xyz" "ent_" = false → getApiKeyTier (some "xyz") = some freeTier) ∧
    getApiKeyTier (some "xyz") = getApiKeyTier (some "xyz") :=
  C5_classification_total "xyz" (by decide)

/-- C9: the claim as stated is false: a reset sets
`resetTime = now + duration`, so when the reset fires strictly after the
old `resetTime` the advance exceeds the window duration. Window with
resetTime 100, reset at now = 150: new resetTime 60150, an advance of
60050, not the minute duration 60000. -/
theorem C9_counterexample :
    (100 : Nat) ≤ 150 ∧
    (resetWindow ⟨3, 100⟩ 150 minuteMs).resetTime - 100 ≠ minuteMs ∧
    (resetWindow ⟨3, 100⟩ 150 minuteMs).resetTime = 150 + minuteMs := by
  decide

/-- C9 (amended): on each reset (`resetTime <= now`) the new `resetTime`
is exactly `now + duration`: it is strictly greater than `now` (hence
strictly greater than the old value) and at least the old `resetTime`
plus the window duration, with equality only when the reset fires exactly
at the old `resetTime`. -/
theorem C9_reset_advance (w : WindowState) (now dur : Nat)
    (hdur : 0 < dur) (h : w.resetTime ≤ now) :
    (resetWindow w now dur).resetTime = now + dur ∧
    now < (resetWindow w now dur).resetTime ∧
    w.resetTime + dur ≤ (resetWindow w now dur).resetTime := by
  unfold resetWindow
  rw [if_pos h]
  refine ⟨rfl, ?_, ?_⟩ <;> simp <;> omega

/-- C9 witness: the amended statement at the counterexample's input. -/
theorem C9_reset_advance_witness :
    (resetWindow ⟨3, 100⟩ 150 minuteMs).resetTime = 150 + minuteMs ∧
    150 < (resetWindow ⟨3, 100⟩ 150 minuteMs).resetTime ∧
    100 + minuteMs ≤ (resetWindow ⟨3, 100⟩ 150 minuteMs).resetTime :=
  C9_reset_advance ⟨3, 100⟩ 150 minuteMs (by decide) (by decide)


/-- C4: for a request that passed key validation and rate limiting,
(a) not requesting real hardware never capability-denies, regardless of
tier; (b) requesting it on a tier that allows it proceeds with
`hardware = true`; (c) requesting it on a tier that disallows it is a
hard 403 `HARDWARE_ACCESS_DENIED`, not a silent downgrade. -/
theorem C4_capability_gate (key : Option String) (body : RequestBody)
    (st : Option KeyState) (now : Nat) (tier : Tier) (k : String)
    (r : Option Int) (hdrs : RateHeaders)
    (hok : (validateRequest key st now).1 = .ok tier k r hdrs) :
    (body.use_real_hardware = false →
      (handleBellPair key body st now).1 = .ok false hdrs) ∧
    (body.use_real_hardware = true → tier.allowRealHardware = true →
      (handleBellPair key body st now).1 = .ok true hdrs) ∧
    (body.use_real_hardware = true → tier.allowRealHardware = false →
      (handleBellPair key body st now).1 = .error "HARDWARE_ACCESS_DENIED" 403) := by
  rcases hv : validateRequest key st now with ⟨res, st2⟩
  rw [hv] at hok
  have hres : res = .ok tier k r hdrs := hok
  subst hres
  unfold handleBellPair
  rw [hv]
  refine ⟨?_, ?_, ?_⟩
  · intro h1
    simp [h1, canUseRealHardware]
  · intro h1 h2
    simp [h1, h2, canUseRealHardware]
  · intro h1 h2
    simp [h1, h2, canUseRealHardware]

/-- C4 witness: a Free-tier key requesting real hardware on a fresh store
is hard-denied with 403 HARDWARE_ACCESS_DENIED. -/
theorem C4_capability_gate_witness :
    (handleBellPair (some "free_a") ⟨true, false⟩ none 0).1 =
      .error "HARDWARE_ACCESS_DENIED" 403 :=
  (C4_capability_gate (some "free_a") ⟨true, false⟩ none 0 freeTier "free_a"
    (some 99)
    { xRateLimitLimit := "100", xRateLimitRemaining := "99",
      xRateLimitReset := "", xApiTier := "Free" }
    (by decide)).2.2 rfl rfl

/-- C6: if every finite-limit window's counter is within its limit before
the call, it still is after the call (`count` is in `[0, limit]`, the
lower bound being inherent to `Nat`), and a request that finds any window
at or past its limit is Blocked (and, by the state equation, blocked
before any increment). -/
theorem C6_counter_bound (tier : Tier) (st : Option KeyState) (now : Nat)
    (hd : withinLimit tier.requestsPerDay (st.getD (initKeyState now)).day.count = true)
    (hh : withinLimit tier.requestsPerHour (st.getD (initKeyState now)).hour.count = true)
    (hm : withinLimit tier.requestsPerMinute (st.getD (initKeyState now)).minute.count = true) :
    (withinLimit tier.requestsPerDay (checkRateLimit tier st now).2.day.count = true ∧
     withinLimit tier.requestsPerHour (checkRateLimit tier st now).2.hour.count = true ∧
     withinLimit tier.requestsPerMinute (checkRateLimit tier st now).2.minute.count = true) ∧
    (∀ w : Window,
      exceeded (windowLimit tier w) ((windowOf (postResetState st now) w).count) = true →
        (checkRateLimit tier st now).1.isBlocked = true) := by
  constructor
  · by_cases hb : (checkRateLimit tier st now).1.isBlocked = true
    · rw [checkRateLimit_state_of_blocked tier st now hb]
      simp only [postResetState]
      exact ⟨withinLimit_resetWindow _ _ _ _ hd, withinLimit_resetWindow _ _ _ _ hh,
        withinLimit_resetWindow _ _ _ _ hm⟩
    · rw [checkRateLimit_isBlocked_iff] at hb
      simp only [not_or, Bool.not_eq_true] at hb
      obtain ⟨h1, h2, h3⟩ := hb
      rw [checkRateLimit_allowed_eq tier st now h1 h2 h3]
      exact ⟨withinLimit_succ _ _ h1, withinLimit_succ _ _ h2, withinLimit_succ _ _ h3⟩
  · intro w hw
    rw [checkRateLimit_isBlocked_iff]
    cases w
    · exact Or.inl hw
    · exact Or.inr (Or.inl hw)
    · exact Or.inr (Or.inr hw)

/-- C6 witness: first call for a Free-tier key, all counters start at 0
and stay within their limits. -/
theorem C6_counter_bound_witness :
    (withinLimit freeTier.requestsPerDay (checkRateLimit freeTier none 0).2.day.count = true ∧
     withinLimit freeTier.requestsPerHour (checkRateLimit freeTier none 0).2.hour.count = true ∧
     withinLimit freeTier.requestsPerMinute (checkRateLimit freeTier none 0).2.minute.count = true) ∧
    (∀ w : Window,
      exceeded (windowLimit freeTier w) ((windowOf (postResetState none 0) w).count) = true →
        (checkRateLimit freeTier none 0).1.isBlocked = true) :=
  C6_counter_bound freeTier none 0 (by decide) (by decide) (by decide)

/-- C7: the claim as stated is false: the unrecognized-format key "xyz"
(no free_/pro_/ent_ prefix) is not rejected with 401 INVALID_API_KEY —
it passes key validation (classified into the Free tier) and the request
carries no error code at all. -/
theorem C7_counterexample :
    strStartsWith "xyz" "free_" = false ∧
    strStartsWith "xyz" "pro_" = false ∧
    strStartsWith "xyz" "ent_" = false ∧
    (validateRequest (some "xyz") none 0).1.errorCode = none ∧
    validateApiKey (some "xyz") = .valid freeTier "xyz" := by
  decide

/-- C7 (amended): a request is rejected with HTTP 401 and code
INVALID_API_KEY exactly when the key is missing or empty; every non-empty
key — including unrecognized formats, which default to the Free tier —
passes key validation. -/
theorem C7_missing_key_401 (key : Option String) (st : Option KeyState) (now : Nat) :
    (((validateRequest key st now).1.errorCode = some "INVALID_API_KEY" ∧
      (validateRequest key st now).1.errorStatus = some 401) ↔
      (key = none ∨ key = some "")) ∧
    (∀ k : String, k ≠ "" → ∃ t : Tier, validateApiKey (some k) = .valid t k) := by
  refine ⟨⟨?_, ?_⟩, fun k hk => validateApiKey_of_ne_empty k hk⟩
  · rintro ⟨hcode, -⟩
    rcases key with _ | k
    · exact Or.inl rfl
    · by_cases hk : k = ""
      · exact Or.inr (by rw [hk])
      · exfalso
        obtain ⟨t, ht⟩ := validateApiKey_of_ne_empty k hk
        rcases hcr : checkRateLimit t st now with ⟨r, s2⟩
        cases r <;>
          simp [validateRequest, ht, hcr, ValidationResult.errorCode] at hcode
  · rintro (rfl | rfl)
    · exact ⟨rfl, rfl⟩
    · exact ⟨rfl, rfl⟩

/-- C7 witness: a request with no key is 401 INVALID_API_KEY, while the
unrecognized key "xyz" passes key validation. -/
theorem C7_missing_key_401_witness :
    (validateRequest none none 0).1.errorCode = some "INVALID_API_KEY" ∧
    (validateRequest none none 0).1.errorStatus = some 401 ∧
    ∃ t : Tier, validateApiKey (some "xyz") = .valid t "xyz" := by
  obtain ⟨hiff, hall⟩ := C7_missing_key_401 none none 0
  exact ⟨(hiff.mpr (Or.inl rfl)).1, (hiff.mpr (Or.inl rfl)).2, hall "xyz" (by decide)⟩

/-- C8: at the failing input (key "free_abc", empty store, now = 0) the
allowed response carries X-RateLimit-Limit "100", X-RateLimit-Remaining
"99" and X-API-Tier "Free" as claimed, but X-RateLimit-Reset is the empty
string — not the day-window reset epoch 86400000 recorded in the store —
because the Allowed result of `checkRateLimit` has no `resetTime` field
and `validateRequest` falls back to `''`. -/
theorem C8_reset_header_blank :
    (validateRequest (some "free_abc") none 0).1 =
      .ok freeTier "free_abc" (some 99)
        { xRateLimitLimit := "100", xRateLimitRemaining := "99",
          xRateLimitReset := "", xApiTier := "Free" } ∧
    ((validateRequest (some "free_abc") none 0).2.getD (initKeyState 0)).day.resetTime =
      86400000 := by
  decide

/-- C10 (implicit claim): a request that reaches the capability gate and
is 403-denied has already consumed rate-limit quota: the store entry
holds all three counters incremented by 1 relative to their post-reset
values, and the denial does not roll them back. -/
theorem C10_denied_consumes_quota (key : Option String) (body : RequestBody)
    (st : Option KeyState) (now : Nat)
    (h : (handleBellPair key body st now).1 = .error "HARDWARE_ACCESS_DENIED" 403) :
    ∃ s' : KeyState, (handleBellPair key body st now).2 = some s' ∧
      s'.day.count = (postResetState st now).day.count + 1 ∧
      s'.hour.count = (postResetState st now).hour.count + 1 ∧
      s'.minute.count = (postResetState st now).minute.count + 1 := by
  rcases hva : validateApiKey key with e | ⟨t, k⟩
  · exfalso
    simp [handleBellPair, validateRequest, hva] at h
  · by_cases hb : (checkRateLimit t st now).1.isBlocked = true
    · exfalso
      rcases hcr : checkRateLimit t st now with ⟨r, s2⟩
      rw [hcr] at hb
      cases r with
      | allowed rr => simp [RLResult.isBlocked] at hb
      | blocked reason l rt =>
        simp [handleBellPair, validateRequest, hva, hcr] at h
    · rw [checkRateLimit_isBlocked_iff] at hb
      simp only [not_or, Bool.not_eq_true] at hb
      obtain ⟨h1, h2, h3⟩ := hb
      have hcr := checkRateLimit_allowed_eq t st now h1 h2 h3
      simp only [handleBellPair, validateRequest, hva, hcr]
      refine ⟨_, snd_ite _ _ _ _, rfl, rfl, rfl⟩

/-- C10 witness: the Free-tier 403 denial from the C4 witness leaves the
key's counters at 1 (the quota was consumed by `validateRequest`). -/
theorem C10_denied_consumes_quota_witness :
    ∃ s' : KeyState, (handleBellPair (some "free_a") ⟨true, false⟩ none 0).2 = some s' ∧
      s'.day.count = (postResetState none 0).day.count + 1 ∧
      s'.hour.count = (postResetState none 0).hour.count + 1 ∧
      s'.minute.count = (postResetState none 0).minute.count + 1 :=
  C10_denied_consumes_quota (some "free_a") ⟨true, false⟩ none 0 (by decide)


end QuantumApiWorker
